import Mathlib

/-!
Shallow embedding of the statistics-collection and assertion subsystems of
the Pynguin repository, together with theorems settling the specification
claims about them.

The embedding follows `src/pynguin/utils/statistics/searchstatistics.py`
and `src/pynguin/assertion/complexassertion.py`.  Parts of the repository
that are referenced but whose files are not available (the output-variable
factory classes, the assertion base class and the field/primitive
assertion variants) are modelled from the specification; each such
definition carries a doc comment starting with `Modelled from the spec:`.

Python values flowing through the statistics collector are modelled by a
small dynamic value type; Python `float` values are modelled as rationals
(they are only stored and passed through, never computed with).  Python
dictionaries (insertion ordered) are modelled as association lists with
insert-or-update keeping the original position.  A Python function that can
raise (the `assert` in `set_output_variable`) returns `Option`: `none`
models the raised `AssertionError`.
-/

/-- Dynamic Python value as it flows through the statistics collector:
integers, floats (modelled as rationals) and strings. -/
inductive PyValue where
  | int (n : Int)
  | num (q : Rat)
  | str (s : String)
deriving DecidableEq, Repr

/-- Lookup in a Python dict modelled as an association list (first match). -/
def dictLookup {α : Type} (k : String) : List (String × α) → Option α
  | [] => none
  | (k', v) :: rest => if k' = k then some v else dictLookup k rest

/-- Python dict assignment `d[k] = v`: update in place when the key exists
(keeping its position), otherwise append at the end. -/
def dictInsert {α : Type} (k : String) (v : α) : List (String × α) → List (String × α)
  | [] => [(k, v)]
  | (k', v') :: rest =>
    if k' = k then (k', v) :: rest else (k', v') :: dictInsert k v rest

/-- Apply a function to the value stored under a key, leaving the rest of
the dict unchanged (models mutating the object stored in a Python dict). -/
def dictModify {α : Type} (k : String) (g : α → α) : List (String × α) → List (String × α)
  | [] => []
  | (k', v) :: rest =>
    if k' = k then (k', g v) :: rest else (k', v) :: dictModify k g rest

/-- The runtime variables used by `searchstatistics.py` (an excerpt of the
`RuntimeVariable` enum; `.name` of a Python enum member is its identifier). -/
inductive RuntimeVariable where
  | Length
  | Size
  | Coverage
  | Fitness
  | CoverageTimeline
  | SizeTimeline
  | LengthTimeline
  | TotalExceptionsTimeline
  | Random_Seed
  | total_time
deriving DecidableEq, Repr

/-- The `.name` attribute of a `RuntimeVariable` enum member. -/
def RuntimeVariable.name : RuntimeVariable → String
  | .Length => "Length"
  | .Size => "Size"
  | .Coverage => "Coverage"
  | .Fitness => "Fitness"
  | .CoverageTimeline => "CoverageTimeline"
  | .SizeTimeline => "SizeTimeline"
  | .LengthTimeline => "LengthTimeline"
  | .TotalExceptionsTimeline => "TotalExceptionsTimeline"
  | .Random_Seed => "Random_Seed"
  | .total_time => "total_time"

/-- An output variable: an immutable `(name, value)` pair
(`pynguin.utils.statistics.statisticsbackend.OutputVariable`). -/
structure OutputVariable where
  name : String
  value : PyValue
deriving DecidableEq, Repr

/-- A test-suite chromosome as far as the statistics collector observes it:
`size`, `total_length_of_test_cases`, `coverage` and `fitness`. -/
structure TestSuiteChromosome where
  size : Nat
  total_length_of_test_cases : Nat
  coverage : Rat
  fitness : Rat
deriving DecidableEq, Repr

/-- A chromosome handed to `current_individual`: either a
`TestSuiteChromosome` or some other kind of chromosome (the
`isinstance` check in the source distinguishes exactly these cases). -/
inductive Chromosome where
  | testSuite (t : TestSuiteChromosome)
  | other
deriving DecidableEq, Repr

/-- The `StatisticsBackend` configuration enum. -/
inductive StatisticsBackendKind where
  | CONSOLE
  | CSV
  | NONE
deriving DecidableEq, Repr

/-- The excerpt of the global `config.INSTANCE` read by
`searchstatistics.py`: the selected backend, the random seed and the
comma-separated requested output-variable names. -/
structure Config where
  statistics_backend : StatisticsBackendKind
  seed : Int
  output_variables : String
deriving DecidableEq, Repr

/-- A concrete statistics backend instance (console or CSV); calls to its
`write_data` are recorded in the collector state. -/
inductive Backend where
  | console
  | csv
deriving DecidableEq, Repr

/-- Modelled from the spec: a `ChromosomeOutputVariableFactory` holds the
runtime variable it produces and derives the value from an individual via
`get_data`; the concrete `get_data` bodies are in the source
(`searchstatistics.py`, inner classes). -/
structure ChromosomeOutputVariableFactory where
  rv : RuntimeVariable
  get_data : TestSuiteChromosome → PyValue

/-- Modelled from the spec: `get_variable` wraps the factory's `get_data`
result into an `OutputVariable` named after the factory's runtime
variable. -/
def get_variable (f : ChromosomeOutputVariableFactory) (t : TestSuiteChromosome) :
    OutputVariable :=
  { name := f.rv.name, value := f.get_data t }

/-- Whether a sequence factory is a plain `SequenceOutputVariableFactory`
(deriving its current value from the individual) or a
`DirectSequenceOutputVariableFactory` (holding a directly-set value). -/
inductive SeqKind where
  | plain (get_value : TestSuiteChromosome → PyValue)
  | direct

/-- Boolean test for the direct variant (models
`isinstance(var, DirectSequenceOutputVariableFactory)`). -/
def SeqKind.isDirect : SeqKind → Bool
  | .direct => true
  | .plain _ => false

/-- Modelled from the spec: a sequence output-variable factory accumulates
one value per generation in `sequence`; a direct factory additionally
holds the last directly-set `value`.  The file
`pynguin/utils/statistics/outputvariablefactory.py` is not under `src`. -/
structure SequenceOutputVariableFactory where
  rv : RuntimeVariable
  kind : SeqKind
  value : PyValue
  sequence : List PyValue

/-- Modelled from the spec: the current value a sequence factory would
record — derived from the individual for a plain factory, the directly-set
value for a direct factory. -/
def SequenceOutputVariableFactory.currentValue (f : SequenceOutputVariableFactory)
    (t : TestSuiteChromosome) : PyValue :=
  match f.kind with
  | .plain g => g t
  | .direct => f.value

/-- Modelled from the spec: `update(individual)` appends the current value
to the factory's time series. -/
def SequenceOutputVariableFactory.update (f : SequenceOutputVariableFactory)
    (t : TestSuiteChromosome) : SequenceOutputVariableFactory :=
  { f with sequence := f.sequence ++ [f.currentValue t] }

/-- Modelled from the spec: `DirectSequenceOutputVariableFactory.set_value`
routes a directly-set value into the sequence's accumulator (the value is
also remembered as the current direct value). -/
def SequenceOutputVariableFactory.set_value (f : SequenceOutputVariableFactory)
    (v : PyValue) : SequenceOutputVariableFactory :=
  { f with value := v, sequence := f.sequence ++ [v] }

/-- Modelled from the spec: a sequence factory expands into one physical
output variable per list position, named `Name_1`, `Name_2`, … -/
def SequenceOutputVariableFactory.get_output_variables
    (f : SequenceOutputVariableFactory) : List OutputVariable :=
  (List.range f.sequence.length).zip f.sequence |>.map
    (fun p => { name := f.rv.name ++ "_" ++ toString (p.1 + 1), value := p.2 })

/-- The mutable state of a `SearchStatistics` instance, together with the
observable effects of its collaborators: `warnings` and `errors` record
logger calls, `written` records each mapping handed to the backend's
`write_data`. -/
structure SearchStatistics where
  backend : Option Backend
  output_variables : List (String × OutputVariable)
  variable_factories : List (String × ChromosomeOutputVariableFactory)
  sequence_output_variable_factories : List (String × SequenceOutputVariableFactory)
  best_individual : Option TestSuiteChromosome
  start_time : Int
  warnings : List String
  errors : List String
  written : List (List (String × OutputVariable))

/-- `SearchStatistics._initialise_backend`: console and CSV backends are
instantiated, anything else yields no backend. -/
def initialise_backend (c : Config) : Option Backend :=
  match c.statistics_backend with
  | .CONSOLE => some .console
  | .CSV => some .csv
  | .NONE => none

/-- `SearchStatistics._init_factories`: the four chromosome output-variable
factories, keyed by runtime-variable name, in registration order. -/
def initFactories : List (String × ChromosomeOutputVariableFactory) :=
  [ (RuntimeVariable.Length.name,
      { rv := .Length, get_data := fun t => .int t.total_length_of_test_cases }),
    (RuntimeVariable.Size.name,
      { rv := .Size, get_data := fun t => .int t.size }),
    (RuntimeVariable.Coverage.name,
      { rv := .Coverage, get_data := fun t => .num t.coverage }),
    (RuntimeVariable.Fitness.name,
      { rv := .Fitness, get_data := fun t => .num t.fitness }) ]

/-- `SearchStatistics._fill_sequence_output_variable_factories`: three plain
sequence factories and one direct integer factory
(`DirectSequenceOutputVariableFactory.get_integer`, initial value 0,
modelled from the spec), keyed by runtime-variable name. -/
def fillSequenceFactories : List (String × SequenceOutputVariableFactory) :=
  [ (RuntimeVariable.CoverageTimeline.name,
      { rv := .CoverageTimeline, kind := .plain (fun t => .num t.coverage),
        value := .int 0, sequence := [] }),
    (RuntimeVariable.SizeTimeline.name,
      { rv := .SizeTimeline, kind := .plain (fun t => .int t.size),
        value := .int 0, sequence := [] }),
    (RuntimeVariable.LengthTimeline.name,
      { rv := .LengthTimeline,
        kind := .plain (fun t => .int t.total_length_of_test_cases),
        value := .int 0, sequence := [] }),
    (RuntimeVariable.TotalExceptionsTimeline.name,
      { rv := .TotalExceptionsTimeline, kind := .direct,
        value := .int 0, sequence := [] }) ]

/-- `SearchStatistics.set_output_variable`: a name registered as a sequence
variable is routed to that factory — after an `assert` that the factory is
a direct one, whose failure (an `AssertionError`) is modelled by `none`;
any other name is stored in the flat scalar map. -/
def SearchStatistics.set_output_variable (s : SearchStatistics)
    (v : OutputVariable) : Option SearchStatistics :=
  match dictLookup v.name s.sequence_output_variable_factories with
  | some f =>
    match f.kind.isDirect with
    | true =>
      some { s with
        sequence_output_variable_factories :=
          dictModify v.name (fun g => g.set_value v.value)
            s.sequence_output_variable_factories }
    | false => none
  | none =>
    some { s with output_variables := dictInsert v.name v s.output_variables }

/-- `SearchStatistics.set_output_variable_for_runtime_variable`. -/
def SearchStatistics.set_output_variable_for_runtime_variable
    (s : SearchStatistics) (rv : RuntimeVariable) (value : PyValue) :
    Option SearchStatistics :=
  s.set_output_variable { name := rv.name, value := value }

/-- The loop over `self._variable_factories.values()` in
`current_individual`, calling `set_output_variable` on each factory's
variable; propagates a raised `AssertionError`. -/
def setOutputVarsFold (t : TestSuiteChromosome) :
    List (String × ChromosomeOutputVariableFactory) → SearchStatistics →
    Option SearchStatistics
  | [], s => some s
  | (_, f) :: rest, s =>
    match s.set_output_variable (get_variable f t) with
    | none => none
    | some s' => setOutputVarsFold t rest s'

/-- `SearchStatistics.current_individual`: with no backend, return at once;
with a backend, a non-`TestSuiteChromosome` argument only logs a warning;
a `TestSuiteChromosome` stores every chromosome factory's variable and
updates every sequence factory. -/
def SearchStatistics.current_individual (s : SearchStatistics)
    (ind : Chromosome) : Option SearchStatistics :=
  match s.backend with
  | none => some s
  | some _ =>
    match ind with
    | .other =>
      some { s with
        warnings := s.warnings ++ [ "SearchStatistics expected a TestSuiteChromosome" ] }
    | .testSuite t =>
      match setOutputVarsFold t s.variable_factories s with
      | none => none
      | some s' =>
        some { s' with
          sequence_output_variable_factories :=
            s'.sequence_output_variable_factories.map
              (fun p => (p.1, p.2.update t)) }

/-- `SearchStatistics._get_all_output_variable_names`. -/
def all_output_variable_names : List String :=
  [ "TARGET_CLASS", "criterion", RuntimeVariable.Coverage.name ]

/-- Python `str.split(",")` (no maxsplit): split on every comma; the empty
string yields one empty entry. -/
def splitOnCommaAux : List Char → List Char → List (List Char)
  | [], cur => [cur.reverse]
  | c :: rest, cur =>
    if c = ',' then cur.reverse :: splitOnCommaAux rest []
    else splitOnCommaAux rest (c :: cur)

/-- Python `str.split(",")` on a `String`. -/
def pySplitComma (s : String) : List String :=
  (splitOnCommaAux s.data []).map (fun cs => String.mk cs)

/-- Python `str.strip()`: drop leading and trailing whitespace. -/
def pyStrip (s : String) : String :=
  String.mk
    (((s.data.dropWhile Char.isWhitespace).reverse.dropWhile Char.isWhitespace).reverse)

/-- `SearchStatistics._get_output_variable_names`: the default fixed list
when no names are configured, otherwise the comma-separated configured
entries, each stripped of surrounding whitespace, in order. -/
def get_output_variable_names (c : Config) : List String :=
  if c.output_variables = "" then all_output_variable_names
  else (pySplitComma c.output_variables).map pyStrip

/-- Insert a list of expanded sequence output variables into the result
dict, keyed by each variable's own name. -/
def insertAllVars (vs : List OutputVariable) (acc : List (String × OutputVariable)) :
    List (String × OutputVariable) :=
  vs.foldl (fun a v => dictInsert v.name v a) acc

/-- The loop body of `SearchStatistics._get_output_variables`: resolve each
requested name against the directly-set scalars, then the chromosome
factories, then the sequence factories; an unresolved name yields an empty
placeholder if `skip` is set, otherwise an error log and an empty result.
Returns the resolved dict together with the error messages logged. -/
def getOutputVariablesAux (s : SearchStatistics) (ind : TestSuiteChromosome)
    (skip : Bool) :
    List String → List (String × OutputVariable) →
    List (String × OutputVariable) × List String
  | [], acc => (acc, [])
  | n :: rest, acc =>
    match dictLookup n s.output_variables with
    | some v => getOutputVariablesAux s ind skip rest (dictInsert n v acc)
    | none =>
      match dictLookup n s.variable_factories with
      | some f =>
        getOutputVariablesAux s ind skip rest (dictInsert n (get_variable f ind) acc)
      | none =>
        match dictLookup n s.sequence_output_variable_factories with
        | some sf =>
          getOutputVariablesAux s ind skip rest (insertAllVars sf.get_output_variables acc)
        | none =>
          if skip then
            getOutputVariablesAux s ind skip rest
              (dictInsert n { name := n, value := .str "" } acc)
          else ([], [ "No obtained value for output variable " ++ n ])

/-- `SearchStatistics._get_output_variables` (with its `skip_missing`
default of `False`). -/
def SearchStatistics.get_output_variables (s : SearchStatistics) (c : Config)
    (ind : TestSuiteChromosome) (skip : Bool := false) :
    List (String × OutputVariable) × List String :=
  getOutputVariablesAux s ind skip (get_output_variable_names c) []

/-- The state of `write_statistics` right after storing the `total_time`
output variable (which happens before the best-individual check). -/
def SearchStatistics.writeS1 (s : SearchStatistics) (now : Int) : SearchStatistics :=
  { s with
    output_variables :=
      dictInsert RuntimeVariable.total_time.name
        { name := RuntimeVariable.total_time.name, value := .int (now - s.start_time) }
        s.output_variables }

/-- `SearchStatistics.write_statistics`: `False` with no backend; with a
backend, store `total_time`, then `False` (plus an error log) with no best
individual; otherwise resolve the output variables, hand them to the
backend's `write_data` and return `True`.  The global config and the
current time are read at call time and passed as arguments. -/
def SearchStatistics.write_statistics (s : SearchStatistics) (c : Config)
    (now : Int) : SearchStatistics × Bool :=
  match s.backend with
  | none => (s, false)
  | some _ =>
    let s1 := s.writeS1 now
    match s1.best_individual with
    | none =>
      ({ s1 with
        errors := s1.errors ++
          [ "No statistics has been saved because Pynguin failed to generate any test case" ] },
        false)
    | some ind =>
      let res := s1.get_output_variables c ind
      ({ s1 with
        errors := s1.errors ++ res.2,
        written := s1.written ++ [res.1] }, true)

/-- `SearchStatistics.__init__`: select the backend, register the factories,
record the random seed as a directly-set output variable, fill the
sequence factories, note the start time, and start with no best
individual.  The seed is set before the sequence factories are filled, so
the `assert` in `set_output_variable` cannot fire; `none` would model a
raised exception. -/
def SearchStatistics.init (c : Config) (t0 : Int) : Option SearchStatistics :=
  let s0 : SearchStatistics :=
    { backend := initialise_backend c
      output_variables := []
      variable_factories := initFactories
      sequence_output_variable_factories := []
      best_individual := none
      start_time := t0
      warnings := []
      errors := []
      written := [] }
  match s0.set_output_variable_for_runtime_variable .Random_Seed (.int c.seed) with
  | none => none
  | some s1 =>
    some { s1 with sequence_output_variable_factories := fillSequenceFactories }

/-- A trivial inhabitant of the collector state. -/
def defaultSearchStatistics : SearchStatistics :=
  { backend := none
    output_variables := []
    variable_factories := []
    sequence_output_variable_factories := []
    best_individual := none
    start_time := 0
    warnings := []
    errors := []
    written := [] }

instance : Inhabited SearchStatistics := ⟨defaultSearchStatistics⟩

/-- The state produced by a (never-failing) `SearchStatistics.init`. -/
def SearchStatistics.initState (c : Config) (t0 : Int) : SearchStatistics :=
  (SearchStatistics.init c t0).getD defaultSearchStatistics

/-- A test case, as far as assertion cloning observes it: an opaque
identity for the statement sequence an assertion's source is re-bound
into. -/
structure TestCase where
  ident : Nat
deriving DecidableEq, Repr

/-- A non-owning reference to a statement's result variable: the owning
test case and the position inside it. -/
structure VariableReference where
  test_case : Nat
  position : Nat
deriving DecidableEq, Repr

/-- Modelled from the spec: cloning a variable reference re-binds it into
the target test case at a position shifted by the offset (spec section 3:
the source is re-resolved through the target sequence's own clone of the
origin variable). -/
def VariableReference.clone (v : VariableReference) (tc : TestCase)
    (offset : Nat) : VariableReference :=
  { test_case := tc.ident, position := v.position + offset }

/-- The assertion variants: `Primitive`, `Complex` (source file
`complexassertion.py` is under `src`) and `Field` (its file is not under
`src`; the variant is modelled from the spec and its unit test: it carries
a field name and an optional owners set). -/
inductive Assertion where
  | primitive (source : Option VariableReference) (value : PyValue)
  | complex (source : Option VariableReference) (value : PyValue)
  | field (source : Option VariableReference) (value : PyValue)
      (field : String) (owners : Option (List String))
deriving DecidableEq, Repr

/-- The `source` attribute of an assertion. -/
def Assertion.source : Assertion → Option VariableReference
  | .primitive src _ => src
  | .complex src _ => src
  | .field src _ _ _ => src

/-- The `value` attribute of an assertion. -/
def Assertion.value : Assertion → PyValue
  | .primitive _ v => v
  | .complex _ v => v
  | .field _ v _ _ => v

/-- The `field` attribute (only the Field variant has one). -/
def Assertion.fieldName : Assertion → Option String
  | .field _ _ f _ => some f
  | _ => none

/-- The `owners` attribute (only the Field variant has one). -/
def Assertion.owners : Assertion → Option (Option (List String))
  | .field _ _ _ o => some o
  | _ => none

/-- `clone(new_test_case, offset)`.  The `complex` case is translated from
`ComplexAssertion.clone` in the source: the cloned source is
`self._source.clone(new_test_case, offset) if self._source else None` and
the value is copied.  Modelled from the spec: the `primitive` and `field`
cases (their files are not under `src`) clone the source the same way and
copy `value` (and `field`/`owners`) unchanged. -/
def Assertion.clone (a : Assertion) (tc : TestCase) (offset : Nat) : Assertion :=
  match a with
  | .primitive src v => .primitive (src.map (fun r => r.clone tc offset)) v
  | .complex src v => .complex (src.map (fun r => r.clone tc offset)) v
  | .field src v f o => .field (src.map (fun r => r.clone tc offset)) v f o

/-- An assertion visitor: one method per assertion variant, as in
`pynguin.assertion.assertionvisitor`. -/
structure AssertionVisitor (α : Type) where
  visit_primitive_assertion : Assertion → α
  visit_complex_assertion : Assertion → α
  visit_field_assertion : Assertion → α

/-- `accept(visitor)`.  The `complex` case is translated from
`ComplexAssertion.accept` in the source
(`visitor.visit_complex_assertion(self)`).  Modelled from the spec and the
`FieldAssertion` unit test: the `field` case calls
`visit_field_assertion(self)` and the `primitive` case calls
`visit_primitive_assertion(self)`. -/
def Assertion.accept {α : Type} (a : Assertion) (visitor : AssertionVisitor α) : α :=
  match a with
  | .primitive _ _ => visitor.visit_primitive_assertion a
  | .complex _ _ => visitor.visit_complex_assertion a
  | .field _ _ _ _ => visitor.visit_field_assertion a

/-- A record of one visitor-method invocation, with its argument. -/
inductive VisitorCall where
  | visit_primitive_assertion (a : Assertion)
  | visit_complex_assertion (a : Assertion)
  | visit_field_assertion (a : Assertion)
deriving DecidableEq, Repr

/-- A visitor that records each method invocation. -/
def traceVisitor : AssertionVisitor (List VisitorCall) :=
  { visit_primitive_assertion := fun a => [.visit_primitive_assertion a]
    visit_complex_assertion := fun a => [.visit_complex_assertion a]
    visit_field_assertion := fun a => [.visit_field_assertion a] }

/-- The scalar-storing effect of `current_individual` on the flat map: one
`dictInsert` per registered chromosome factory, in registration order. -/
def applyScalars (t : TestSuiteChromosome)
    (fs : List (String × ChromosomeOutputVariableFactory))
    (d : List (String × OutputVariable)) : List (String × OutputVariable) :=
  fs.foldl (fun acc p => dictInsert (get_variable p.2 t).name (get_variable p.2 t) acc) d

/-- A collector state reachable by some sequence of the operations
`__init__`, `current_individual`, `set_output_variable`,
`set_output_variable_for_runtime_variable` and `write_statistics`; a step
that raises (returns `none`) has no successor state. -/
inductive Reachable : SearchStatistics → Prop where
  | init (c : Config) (t0 : Int) (s : SearchStatistics) :
      SearchStatistics.init c t0 = some s → Reachable s
  | step_current (s s' : SearchStatistics) (ind : Chromosome) :
      Reachable s → s.current_individual ind = some s' → Reachable s'
  | step_set (s s' : SearchStatistics) (v : OutputVariable) :
      Reachable s → s.set_output_variable v = some s' → Reachable s'
  | step_set_rv (s s' : SearchStatistics) (rv : RuntimeVariable) (value : PyValue) :
      Reachable s → s.set_output_variable_for_runtime_variable rv value = some s' →
      Reachable s'
  | step_write (s : SearchStatistics) (c : Config) (now : Int) :
      Reachable s → Reachable (s.write_statistics c now).1

/-- A configuration with the console backend and no configured names. -/
def cCONSOLE : Config :=
  { statistics_backend := .CONSOLE, seed := 17, output_variables := "" }

/-- A configuration with no backend and no configured names. -/
def cNONE : Config :=
  { statistics_backend := .NONE, seed := 42, output_variables := "" }

/-- A configuration requesting two comma-separated names with whitespace. -/
def cTwoNames : Config :=
  { statistics_backend := .NONE, seed := 0, output_variables := " Coverage ,Length" }

/-- A configuration requesting a name no source can resolve. -/
def cUnknown : Config :=
  { statistics_backend := .CONSOLE, seed := 0, output_variables := "Unknown" }

/-- A concrete test-suite chromosome. -/
def tsc1 : TestSuiteChromosome :=
  { size := 2, total_length_of_test_cases := 5, coverage := 1, fitness := 3 }

/-- The direct sequence factory registered for `TotalExceptionsTimeline`. -/
def fTE : SequenceOutputVariableFactory :=
  { rv := .TotalExceptionsTimeline, kind := .direct, value := .int 0, sequence := [] }

/-- A fresh collector state whose `Coverage` variable has additionally been
set directly (so the name is in the flat map and in the factory map). -/
def s4 : SearchStatistics :=
  { SearchStatistics.initState cCONSOLE 0 with
    output_variables :=
      dictInsert "Coverage" { name := "Coverage", value := .num 1 }
        (SearchStatistics.initState cCONSOLE 0).output_variables }

/-- A collector state with a backend and a recorded best individual. -/
def sBest : SearchStatistics :=
  { SearchStatistics.initState cCONSOLE 0 with best_individual := some tsc1 }

/-! ## Helper lemmas -/

theorem init_eq_initState (c : Config) (t0 : Int) :
    SearchStatistics.init c t0 = some (SearchStatistics.initState c t0) := rfl

theorem writeS1_best (s : SearchStatistics) (now : Int) :
    (s.writeS1 now).best_individual = s.best_individual := rfl

theorem writeS1_written (s : SearchStatistics) (now : Int) :
    (s.writeS1 now).written = s.written := rfl

theorem dictLookup_dictModify_self {α : Type} (k : String) (g : α → α) :
    ∀ (l : List (String × α)) (v : α), dictLookup k l = some v →
      dictLookup k (dictModify k g l) = some (g v) := by
  intro l
  induction l with
  | nil => intro v h; exact Option.noConfusion h
  | cons p rest ih =>
    intro v h
    obtain ⟨k', v'⟩ := p
    by_cases hk : k' = k
    · simp [dictLookup, dictModify, hk] at h ⊢
      exact congrArg g h
    · simp [dictLookup, dictModify, hk] at h ⊢
      exact ih v h

theorem set_output_variable_best (s s' : SearchStatistics) (v : OutputVariable)
    (h : s.set_output_variable v = some s') :
    s'.best_individual = s.best_individual := by
  unfold SearchStatistics.set_output_variable at h
  split at h
  · split at h
    · injection h with h
      subst h
      rfl
    · exact Option.noConfusion h
  · injection h with h
    subst h
    rfl

theorem setOutputVarsFold_best (t : TestSuiteChromosome) :
    ∀ (fs : List (String × ChromosomeOutputVariableFactory)) (s s' : SearchStatistics),
      setOutputVarsFold t fs s = some s' → s'.best_individual = s.best_individual := by
  intro fs
  induction fs with
  | nil =>
    intro s s' h
    injection h with h
    subst h
    rfl
  | cons p rest ih =>
    intro s s' h
    unfold setOutputVarsFold at h
    split at h
    · exact Option.noConfusion h
    · next s2 hset => exact (ih s2 s' h).trans (set_output_variable_best s s2 _ hset)

theorem current_individual_best (s s' : SearchStatistics) (ind : Chromosome)
    (h : s.current_individual ind = some s') :
    s'.best_individual = s.best_individual := by
  unfold SearchStatistics.current_individual at h
  split at h
  · injection h with h
    subst h
    rfl
  · split at h
    · injection h with h
      subst h
      rfl
    · split at h
      · exact Option.noConfusion h
      · next s2 hf =>
        injection h with h
        subst h
        exact setOutputVarsFold_best _ s.variable_factories s s2 hf

theorem write_statistics_best (s : SearchStatistics) (c : Config) (now : Int) :
    (s.write_statistics c now).1.best_individual = s.best_individual := by
  obtain ⟨bk, ov, vf, sf, bi, st, w, e, wr⟩ := s
  cases bk <;> cases bi <;> rfl

theorem write_false_of_no_best (s : SearchStatistics) (c : Config) (now : Int)
    (h : s.best_individual = none) : (s.write_statistics c now).2 = false := by
  obtain ⟨bk, ov, vf, sf, bi, st, w, e, wr⟩ := s
  cases bi with
  | none => cases bk <;> rfl
  | some t => exact Option.noConfusion h

theorem reachable_best_none (s : SearchStatistics) (h : Reachable s) :
    s.best_individual = none := by
  induction h with
  | init c t0 s hi =>
    rw [init_eq_initState] at hi
    injection hi with hi
    subst hi
    rfl
  | step_current s s' ind hr hstep ih =>
    exact (current_individual_best s s' ind hstep).trans ih
  | step_set s s' v hr hstep ih =>
    exact (set_output_variable_best s s' v hstep).trans ih
  | step_set_rv s s' rv value hr hstep ih =>
    exact (set_output_variable_best s s' _ hstep).trans ih
  | step_write s c now hr ih =>
    exact (write_statistics_best s c now).trans ih

theorem getOutputVariablesAux_abort (s : SearchStatistics) (ind : TestSuiteChromosome)
    (skip : Bool) :
    ∀ (names : List String) (acc : List (String × OutputVariable)),
      (getOutputVariablesAux s ind skip names acc).2 = [] ∨
      (getOutputVariablesAux s ind skip names acc).1 = [] := by
  intro names
  induction names with
  | nil => intro acc; exact Or.inl rfl
  | cons n rest ih =>
    intro acc
    simp only [getOutputVariablesAux]
    cases h1 : dictLookup n s.output_variables with
    | some v => exact ih _
    | none =>
      cases h2 : dictLookup n s.variable_factories with
      | some f => exact ih _
      | none =>
        cases h3 : dictLookup n s.sequence_output_variable_factories with
        | some sf => exact ih _
        | none =>
          cases skip with
          | false => exact Or.inr rfl
          | true => exact ih _

theorem setOutputVarsFold_no_collision (t : TestSuiteChromosome) :
    ∀ (fs : List (String × ChromosomeOutputVariableFactory)) (s : SearchStatistics),
      (∀ p ∈ fs, (dictLookup (get_variable p.2 t).name
        s.sequence_output_variable_factories).isNone = true) →
      setOutputVarsFold t fs s =
        some { s with output_variables := applyScalars t fs s.output_variables } := by
  intro fs
  induction fs with
  | nil => intro s h; rfl
  | cons p rest ih =>
    intro s h
    have hpn : dictLookup (get_variable p.2 t).name
        s.sequence_output_variable_factories = none :=
      Option.isNone_iff_eq_none.mp (h p (List.mem_cons_self p rest))
    simp only [setOutputVarsFold, SearchStatistics.set_output_variable, hpn]
    exact ih _ (fun p' hp' => h p' (List.mem_cons_of_mem p hp'))

theorem write_statistics_success (s : SearchStatistics) (c : Config) (now : Int)
    (bk : Backend) (ind : TestSuiteChromosome)
    (hb : s.backend = some bk) (hi : s.best_individual = some ind) :
    s.write_statistics c now =
      ({ s.writeS1 now with
          errors := (s.writeS1 now).errors ++
            ((s.writeS1 now).get_output_variables c ind).2,
          written := (s.writeS1 now).written ++
            [((s.writeS1 now).get_output_variables c ind).1] },
        true) := by
  obtain ⟨sbk, ov, vf, sf, bi, st, w, e, wr⟩ := s
  cases sbk with
  | none => exact Option.noConfusion hb
  | some b =>
    cases bi with
    | none => exact Option.noConfusion hi
    | some ind' =>
      injection hi with hi
      subst hi
      rfl

/-! ## Claim theorems -/

/-- C7: for every assertion `a`, target test case `tc` and offset `k`,
`a.clone tc k` keeps `value` (and, for the Field variant, `field` and
`owners`) unchanged; when `a`'s source is present the clone's source is
the original source cloned into `tc` at offset `k`, and when it is absent
the clone's source is absent. -/
theorem c7_clone_fidelity (a : Assertion) (tc : TestCase) (k : Nat) :
    (a.clone tc k).value = a.value
    ∧ (a.clone tc k).source = a.source.map (fun r => r.clone tc k)
    ∧ (a.source = none → (a.clone tc k).source = none)
    ∧ (a.clone tc k).fieldName = a.fieldName
    ∧ (a.clone tc k).owners = a.owners := by
  cases a with
  | primitive src v =>
    refine ⟨rfl, rfl, fun h => ?_, rfl, rfl⟩
    simp only [Assertion.source] at h
    subst h
    rfl
  | complex src v =>
    refine ⟨rfl, rfl, fun h => ?_, rfl, rfl⟩
    simp only [Assertion.source] at h
    subst h
    rfl
  | field src v fd ow =>
    refine ⟨rfl, rfl, fun h => ?_, rfl, rfl⟩
    simp only [Assertion.source] at h
    subst h
    rfl

/-- Witness for C7 at concrete inputs: a field assertion with a source and
a complex assertion without one. -/
theorem c7_clone_fidelity_witness :
    ((Assertion.field (some { test_case := 0, position := 2 }) (.int 1337)
        "field" none).clone { ident := 9 } 20).value = PyValue.int 1337
    ∧ ((Assertion.field (some { test_case := 0, position := 2 }) (.int 1337)
        "field" none).clone { ident := 9 } 20).source =
      some { test_case := 9, position := 22 }
    ∧ ((Assertion.complex none (.int 5)).clone { ident := 9 } 20).source = none :=
  ⟨(c7_clone_fidelity _ { ident := 9 } 20).1,
    ((c7_clone_fidelity (Assertion.field (some { test_case := 0, position := 2 })
      (.int 1337) "field" none) { ident := 9 } 20).2.1).trans rfl,
    (c7_clone_fidelity (Assertion.complex none (.int 5)) { ident := 9 } 20).2.2.1 rfl⟩

/-- C8: `accept(visitor)` invokes exactly one visitor method, the one
matching the assertion's own variant, passing the assertion itself, with
no fallthrough to any other visitor method (witnessed by the tracing
visitor recording exactly one call). -/
theorem c8_accept_dispatch (α : Type) (v : AssertionVisitor α) :
    (∀ src val, (Assertion.complex src val).accept v =
      v.visit_complex_assertion (.complex src val))
    ∧ (∀ src val fd ow, (Assertion.field src val fd ow).accept v =
      v.visit_field_assertion (.field src val fd ow))
    ∧ (∀ src val, (Assertion.primitive src val).accept v =
      v.visit_primitive_assertion (.primitive src val))
    ∧ (∀ a : Assertion, (a.accept traceVisitor).length = 1)
    ∧ (∀ a : Assertion, a.accept traceVisitor =
        match a with
        | .primitive _ _ => [VisitorCall.visit_primitive_assertion a]
        | .complex _ _ => [VisitorCall.visit_complex_assertion a]
        | .field _ _ _ _ => [VisitorCall.visit_field_assertion a]) :=
  ⟨fun _ _ => rfl, fun _ _ _ _ => rfl, fun _ _ => rfl,
    fun a => by cases a <;> rfl, fun a => by cases a <;> rfl⟩

/-- C10: with no configured names, `_get_output_variable_names` returns
exactly the fixed default list `[TARGET_CLASS, criterion, Coverage]`; with
configured names it returns the comma-separated entries, each stripped of
whitespace, in order. -/
theorem c10_output_variable_names (c : Config) :
    (c.output_variables = "" →
      get_output_variable_names c = [ "TARGET_CLASS", "criterion", "Coverage" ])
    ∧ (c.output_variables ≠ "" →
      get_output_variable_names c = (pySplitComma c.output_variables).map pyStrip) := by
  constructor
  · intro h
    rw [get_output_variable_names, if_pos h]
    rfl
  · intro h
    rw [get_output_variable_names, if_neg h]

/-- Witness for C10: the empty configuration yields the default list, and
the configured string `" Coverage ,Length"` yields its stripped entries. -/
theorem c10_output_variable_names_witness :
    get_output_variable_names cNONE = [ "TARGET_CLASS", "criterion", "Coverage" ]
    ∧ get_output_variable_names cTwoNames = [ "Coverage", "Length" ] := by
  constructor
  · exact (c10_output_variable_names cNONE).1 rfl
  · rw [(c10_output_variable_names cTwoNames).2 (by decide)]
    decide

/-- C3: `write_statistics` returns `False` (without raising — the model is
a total function) whenever no backend is configured or no best individual
was recorded, and in both cases nothing is handed to the backend
(`write_data` is not called, so the record of written data is unchanged). -/
theorem c3_write_statistics_failure (s : SearchStatistics) (c : Config) (now : Int)
    (h : s.backend = none ∨ s.best_individual = none) :
    (s.write_statistics c now).2 = false
    ∧ (s.write_statistics c now).1.written = s.written := by
  obtain ⟨bk, ov, vf, sf, bi, st, w, e, wr⟩ := s
  rcases h with h | h
  · cases bk with
    | none => exact ⟨rfl, rfl⟩
    | some b => exact Option.noConfusion h
  · cases bi with
    | none => cases bk <;> exact ⟨rfl, rfl⟩
    | some t => exact Option.noConfusion h

/-- Witness for C3 at a concrete state with no backend. -/
theorem c3_write_statistics_failure_witness :
    (defaultSearchStatistics.write_statistics cNONE 3).2 = false
    ∧ (defaultSearchStatistics.write_statistics cNONE 3).1.written =
      defaultSearchStatistics.written :=
  c3_write_statistics_failure defaultSearchStatistics cNONE 3 (Or.inl rfl)

/-- C2: in the code as given no operation ever assigns a best individual,
so `best_individual = None` holds in every reachable collector state and
every call to `write_statistics` returns `False`. -/
theorem c2_best_individual_never_set (s : SearchStatistics) (h : Reachable s) :
    s.best_individual = none
    ∧ ∀ (c : Config) (now : Int), (s.write_statistics c now).2 = false := by
  have hb := reachable_best_none s h
  exact ⟨hb, fun c now => write_false_of_no_best s c now hb⟩

/-- Witness for C2 at the freshly initialised console-backend state. -/
theorem c2_best_individual_never_set_witness :
    (SearchStatistics.initState cCONSOLE 0).best_individual = none
    ∧ ((SearchStatistics.initState cCONSOLE 0).write_statistics cCONSOLE 5).2 = false := by
  have h := c2_best_individual_never_set (SearchStatistics.initState cCONSOLE 0)
    (Reachable.init cCONSOLE 0 _ (init_eq_initState cCONSOLE 0))
  exact ⟨h.1, h.2 cCONSOLE 5⟩

/-- C1 (counterexample): `CoverageTimeline` is a key of the registered
sequence-output-variable factories, yet `set_output_variable` on that name
raises an `AssertionError` (modelled by `none`) instead of routing the
value into the sequence's accumulator — the factory registered for it is
not a `DirectSequenceOutputVariableFactory`, so the claim fails at this
registered sequence name. -/
theorem c1_sequence_routing_counterexample :
    (dictLookup "CoverageTimeline"
      (SearchStatistics.initState cCONSOLE 0).sequence_output_variable_factories).isSome
      = true
    ∧ (SearchStatistics.initState cCONSOLE 0).set_output_variable
      { name := "CoverageTimeline", value := PyValue.int 1 } = none :=
  ⟨rfl, rfl⟩

/-- C1 (amended): for every name `n` registered in the sequence-factory
map, `set_output_variable` never creates a flat scalar entry (the flat map
is unchanged whenever the call returns); if `n`'s factory is a direct one
the value is routed into that sequence's accumulator (appended), and if it
is not direct the call fails with an `AssertionError` (`none`). -/
theorem c1_sequence_routing_amended (s : SearchStatistics) (n : String) (v : PyValue)
    (f : SequenceOutputVariableFactory)
    (hf : dictLookup n s.sequence_output_variable_factories = some f) :
    (∀ s', s.set_output_variable { name := n, value := v } = some s' →
      s'.output_variables = s.output_variables)
    ∧ (f.kind.isDirect = true →
      s.set_output_variable { name := n, value := v } =
        some { s with
          sequence_output_variable_factories :=
            dictModify n (fun g => g.set_value v)
              s.sequence_output_variable_factories }
      ∧ (dictLookup n (dictModify n (fun g => g.set_value v)
          s.sequence_output_variable_factories)).map
          SequenceOutputVariableFactory.sequence = some (f.sequence ++ [v]))
    ∧ (f.kind.isDirect = false →
      s.set_output_variable { name := n, value := v } = none) := by
  cases hd : f.kind.isDirect with
  | true =>
    have hset : s.set_output_variable { name := n, value := v } =
        some { s with
          sequence_output_variable_factories :=
            dictModify n (fun g => g.set_value v)
              s.sequence_output_variable_factories } := by
      simp only [SearchStatistics.set_output_variable, hf, hd]
    refine ⟨fun s' h' => ?_, fun _ => ⟨hset, ?_⟩, fun hfalse => ?_⟩
    · rw [hset] at h'
      injection h' with h'
      subst h'
      rfl
    · rw [dictLookup_dictModify_self n (fun g => g.set_value v) _ f hf]
      rfl
    · exact Bool.noConfusion hfalse
  | false =>
    have hset : s.set_output_variable { name := n, value := v } = none := by
      simp only [SearchStatistics.set_output_variable, hf, hd]
    refine ⟨fun s' h' => ?_, fun htrue => ?_, fun _ => hset⟩
    · rw [hset] at h'
      exact Option.noConfusion h'
    · exact Bool.noConfusion htrue

/-- Witness for the amended C1 at the direct sequence name
`TotalExceptionsTimeline` on a fresh console-backend state. -/
theorem c1_sequence_routing_amended_witness :
    (SearchStatistics.initState cCONSOLE 0).set_output_variable
      { name := "TotalExceptionsTimeline", value := PyValue.int 3 } =
      some { SearchStatistics.initState cCONSOLE 0 with
        sequence_output_variable_factories :=
          dictModify "TotalExceptionsTimeline" (fun g => g.set_value (PyValue.int 3))
            (SearchStatistics.initState cCONSOLE 0).sequence_output_variable_factories }
    ∧ (dictLookup "TotalExceptionsTimeline"
        (dictModify "TotalExceptionsTimeline" (fun g => g.set_value (PyValue.int 3))
          (SearchStatistics.initState cCONSOLE 0).sequence_output_variable_factories)).map
        SequenceOutputVariableFactory.sequence = some (fTE.sequence ++ [PyValue.int 3]) :=
  (c1_sequence_routing_amended (SearchStatistics.initState cCONSOLE 0)
    "TotalExceptionsTimeline" (PyValue.int 3) fTE rfl).2.1 rfl

/-- C4: resolution in `_get_output_variables` consults the three sources in
priority order — a directly-set scalar wins over a registered chromosome
factory, a chromosome factory wins over a sequence factory, and a
sequence factory is only consulted when the first two fail. -/
theorem c4_resolution_priority (s : SearchStatistics) (ind : TestSuiteChromosome)
    (skip : Bool) (n : String) :
    (∀ v, dictLookup n s.output_variables = some v →
      getOutputVariablesAux s ind skip [n] [] = ([(n, v)], []))
    ∧ (dictLookup n s.output_variables = none →
      ∀ f, dictLookup n s.variable_factories = some f →
        getOutputVariablesAux s ind skip [n] [] = ([(n, get_variable f ind)], []))
    ∧ (dictLookup n s.output_variables = none →
      dictLookup n s.variable_factories = none →
      ∀ sf, dictLookup n s.sequence_output_variable_factories = some sf →
        getOutputVariablesAux s ind skip [n] [] =
          (insertAllVars sf.get_output_variables [], [])) := by
  refine ⟨fun v hv => ?_, fun h0 f hf => ?_, fun h0 h1 sf hsf => ?_⟩
  · simp only [getOutputVariablesAux, hv]
    rfl
  · simp only [getOutputVariablesAux, h0, hf]
    rfl
  · simp only [getOutputVariablesAux, h0, h1, hsf]

/-- Witness for C4: on a state whose `Coverage` is both directly set and
registered as a chromosome factory, resolution yields the directly-set
value. -/
theorem c4_resolution_priority_witness :
    getOutputVariablesAux s4 tsc1 false [ "Coverage" ] [] =
      ([( "Coverage", { name := "Coverage", value := PyValue.num 1 })], [])
    ∧ (dictLookup "Coverage" s4.variable_factories).isSome = true :=
  ⟨(c4_resolution_priority s4 tsc1 false "Coverage").1
    { name := "Coverage", value := PyValue.num 1 } rfl, rfl⟩

/-- C5: a requested name none of the three sources can resolve is mapped
to an empty-string placeholder when `skip_missing` is set (and resolution
continues with the remaining names), and yields an error log and an empty
mapping when `skip_missing` is not set. -/
theorem c5_unresolvable_name (s : SearchStatistics) (ind : TestSuiteChromosome)
    (n : String) (rest : List String) (acc : List (String × OutputVariable))
    (h1 : dictLookup n s.output_variables = none)
    (h2 : dictLookup n s.variable_factories = none)
    (h3 : dictLookup n s.sequence_output_variable_factories = none) :
    getOutputVariablesAux s ind true (n :: rest) acc =
      getOutputVariablesAux s ind true rest
        (dictInsert n { name := n, value := .str "" } acc)
    ∧ getOutputVariablesAux s ind false (n :: rest) acc =
      ([], [ "No obtained value for output variable " ++ n ]) := by
  constructor
  · simp only [getOutputVariablesAux, h1, h2, h3]
    rfl
  · simp only [getOutputVariablesAux, h1, h2, h3]
    rfl

/-- Witness for C5 at the unresolvable name `Nope` on a fresh state. -/
theorem c5_unresolvable_name_witness :
    getOutputVariablesAux (SearchStatistics.initState cCONSOLE 0) tsc1 true
      [ "Nope" ] [] =
      getOutputVariablesAux (SearchStatistics.initState cCONSOLE 0) tsc1 true []
        (dictInsert "Nope" { name := "Nope", value := .str "" } [])
    ∧ getOutputVariablesAux (SearchStatistics.initState cCONSOLE 0) tsc1 false
      [ "Nope" ] [] = ([], [ "No obtained value for output variable " ++ "Nope" ]) :=
  c5_unresolvable_name (SearchStatistics.initState cCONSOLE 0) tsc1 "Nope" [] []
    rfl rfl rfl

/-- C6: when a backend is configured and a best individual is recorded but
the resolution in `_get_output_variables` aborts (its error log is
non-empty because some requested name is unresolvable and `skip_missing`
defaults to `False` on the write path), `write_statistics` still hands the
empty mapping to the backend's `write_data` and returns `True`. -/
theorem c6_write_ignores_resolution_failure (s : SearchStatistics) (c : Config)
    (now : Int) (bk : Backend) (ind : TestSuiteChromosome)
    (hb : s.backend = some bk) (hi : s.best_individual = some ind)
    (hm : ((s.writeS1 now).get_output_variables c ind).2 ≠ []) :
    (s.write_statistics c now).2 = true
    ∧ (s.write_statistics c now).1.written = s.written ++ [[]] := by
  have hsucc := write_statistics_success s c now bk ind hb hi
  have hvars : ((s.writeS1 now).get_output_variables c ind).1 = [] := by
    rcases getOutputVariablesAux_abort (s.writeS1 now) ind false
      (get_output_variable_names c) [] with h | h
    · exact absurd h hm
    · exact h
  rw [hsucc]
  refine ⟨rfl, ?_⟩
  rw [hvars]
  rfl

/-- Witness for C6: a state with a backend and a best individual, written
under a configuration requesting the unresolvable name `Unknown`. -/
theorem c6_write_ignores_resolution_failure_witness :
    (sBest.write_statistics cUnknown 9).2 = true
    ∧ (sBest.write_statistics cUnknown 9).1.written = sBest.written ++ [[]] :=
  c6_write_ignores_resolution_failure sBest cUnknown 9 .console tsc1 rfl rfl
    (by decide)

/-- C9 (counterexample): with no backend configured, `current_individual`
applied to a non-`TestSuiteChromosome` argument returns silently without
logging the warning the claim requires — the claimed behaviour only holds
when a backend is configured. -/
theorem c9_current_individual_counterexample :
    (SearchStatistics.initState cNONE 0).current_individual Chromosome.other =
      some (SearchStatistics.initState cNONE 0)
    ∧ (SearchStatistics.initState cNONE 0).warnings = [] :=
  ⟨rfl, rfl⟩

/-- C9 (amended): with no backend configured, `current_individual` returns
immediately, logging nothing and changing nothing, for every argument;
with a backend configured, a non-`TestSuiteChromosome` argument logs a
warning and changes nothing else, and a `TestSuiteChromosome` argument
(when no scalar factory's variable name collides with a registered
sequence name, as is the case for the registered factories) stores one
scalar per registered chromosome factory (overwrite semantics per name)
and appends one value to each registered sequence factory. -/
theorem c9_amended_current_individual (s : SearchStatistics) (t : TestSuiteChromosome) :
    (s.backend = none → ∀ ind, s.current_individual ind = some s)
    ∧ (s.backend.isSome = true →
      s.current_individual .other =
        some { s with
          warnings := s.warnings ++
            [ "SearchStatistics expected a TestSuiteChromosome" ] })
    ∧ (s.backend.isSome = true →
      (∀ p ∈ s.variable_factories, (dictLookup (get_variable p.2 t).name
        s.sequence_output_variable_factories).isNone = true) →
      s.current_individual (.testSuite t) =
        some { s with
          output_variables := applyScalars t s.variable_factories s.output_variables,
          sequence_output_variable_factories :=
            s.sequence_output_variable_factories.map
              (fun p => (p.1, p.2.update t)) }) := by
  obtain ⟨sbk, ov, vf, sf, bi, st, w, e, wr⟩ := s
  refine ⟨fun hb ind => ?_, fun hb => ?_, fun hb hcol => ?_⟩
  · cases sbk with
    | none => rfl
    | some b => exact Option.noConfusion hb
  · cases sbk with
    | none => exact Bool.noConfusion hb
    | some b => rfl
  · cases sbk with
    | none => exact Bool.noConfusion hb
    | some b =>
      have hfold := setOutputVarsFold_no_collision t vf
        (SearchStatistics.mk (some b) ov vf sf bi st w e wr) hcol
      unfold SearchStatistics.current_individual
      dsimp only
      rw [hfold]

/-- Witness for the amended C9: feeding a test-suite chromosome to a fresh
console-backend collector stores the four scalars and appends one value to
each of the four sequence factories. -/
theorem c9_amended_current_individual_witness :
    (SearchStatistics.initState cCONSOLE 0).current_individual
      (Chromosome.testSuite tsc1) =
      some { SearchStatistics.initState cCONSOLE 0 with
        output_variables :=
          applyScalars tsc1 (SearchStatistics.initState cCONSOLE 0).variable_factories
            (SearchStatistics.initState cCONSOLE 0).output_variables,
        sequence_output_variable_factories :=
          (SearchStatistics.initState cCONSOLE 0).sequence_output_variable_factories.map
            (fun p => (p.1, p.2.update tsc1)) } :=
  (c9_amended_current_individual (SearchStatistics.initState cCONSOLE 0) tsc1).2.2
    rfl (by decide)
